import Mathlib

/-!
# Verification of the DWPJT Google-Maps review scrapers

Shallow embedding of `src/data_collection/google_maps_scraper.py`
(class `GoogleMapsReviewsScraper`, prefix `seq`) and
`src/data_collection/gpu-scraper.py`
(class `GPUOptimizedGoogleMapsScraper`, prefix `gpu`).

DOM nodes are modelled by the outcomes of the exact queries the Python code
performs on them: a selector that matches no element (or whose query raises)
is `none`, a match is `some text`.  Dates are modelled at day granularity as
integers (the Python code formats everything with `strftime("%Y-%m-%d")` and
subtracts whole-day `Timedelta`s).  The language classifier
`langdetect.detect` is modelled as a function `String → Option String` where
`none` stands for `LangDetectException`.

String primitives (`in`, `.lower()`, `.strip()`, `.endswith()`, the
`re.search(r'(\d+)', ...)` idiom) are defined over the character list of the
string so that every definition evaluates by kernel reduction.
-/

/-- `needle` is an initial segment of `hay` (character lists). -/
def charsLeads : List Char → List Char → Bool
  | [], _ => true
  | _ :: _, [] => false
  | a :: as, b :: bs => a == b && charsLeads as bs

/-- `needle` occurs contiguously in `hay` (character lists); the empty needle
always occurs, as with Python's `in`. -/
def charsHas (needle : List Char) : List Char → Bool
  | [] => needle.isEmpty
  | b :: bs => charsLeads needle (b :: bs) || charsHas needle bs

/-- Python's `needle in hay` on strings. -/
def pyIn (needle hay : String) : Bool :=
  charsHas needle.data hay.data

/-- Python's `str.lower()` (ASCII case folding; every keyword the scraper
compares is ASCII). -/
def strLower (s : String) : String :=
  ⟨s.data.map Char.toLower⟩

/-- Python's `str.strip()`: drop whitespace from both ends. -/
def pyStrip (s : String) : String :=
  ⟨((s.data.dropWhile Char.isWhitespace).reverse.dropWhile Char.isWhitespace).reverse⟩

/-- Python's `str.endswith(suffix)`. -/
def strEnds (s suffix : String) : Bool :=
  charsLeads suffix.data.reverse s.data.reverse

/-- Value of a list of decimal digits, as produced by Python's `int` on a
digit string. -/
def digitsVal (ds : List Char) : Nat :=
  ds.foldl (fun n c => 10 * n + (c.toNat - 48)) 0

/-- First maximal run of digits in a character list. -/
def firstDigitRun : List Char → Option (List Char)
  | [] => none
  | c :: cs => if c.isDigit then some (c :: cs.takeWhile Char.isDigit) else firstDigitRun cs

/-- Python's `int(re.search(r'(\d+)', s).group(1))`: the first maximal digit
run of `s`, or `none` when `re.search` returns `None` (in the source that
makes `.group` raise, which the enclosing `try` turns into a skip). -/
def firstNat (s : String) : Option Nat :=
  (firstDigitRun s.data).map digitsVal

/-- Python truthiness of the scraped `rating` variable: `None` and `0` are
falsy, every other integer is truthy. -/
def pyTruthyInt : Option Int → Bool
  | none => false
  | some v => v != 0

/-!
## Review-rating extraction, sequential scraper

`google_maps_scraper.py` lines 367-391: `rating = None`, then
`for method in rating_methods: try: rating = method();
if rating and 1 <= rating <= 5: break; except: continue`.
A method outcome of `none` models the method raising; `some v` models it
returning the integer `v`.  Note that a returned value is assigned to
`rating` *before* the range test, so an out-of-range value persists unless a
later method overwrites it.
-/

/-- The `for method in rating_methods` loop of the sequential scraper.  The
first argument is the current value of the Python variable `rating`. -/
def ratingFold : Option Int → List (Option Int) → Option Int
  | r, [] => r
  | r, none :: ms => ratingFold r ms
  | _, some v :: ms =>
      if v ≠ 0 ∧ 1 ≤ v ∧ v ≤ 5 then some v else ratingFold (some v) ms

/-- First method outcome lying in the accepted range (the value at which the
source loop `break`s). -/
def firstInRange : List (Option Int) → Option Int
  | [] => none
  | none :: ms => firstInRange ms
  | some v :: ms =>
      if v ≠ 0 ∧ 1 ≤ v ∧ v ≤ 5 then some v else firstInRange ms

/-- Last method outcome that returned at all, defaulting to the first
argument. -/
def lastSomeD : Option Int → List (Option Int) → Option Int
  | r, [] => r
  | r, none :: ms => lastSomeD r ms
  | _, some v :: ms => lastSomeD (some v) ms

/-- The three `rating_methods` of `google_maps_scraper.py` lines 371-381, in
declared order:
1. first integer in the `aria-label` of `span[aria-label*='star' i]`
   (`none` when the element is absent or the label holds no digit — both
   raise in Python);
2. `len(review_element.find_elements("img[src*='star_active'], span.vzX5Ic"))`
   — a `len` of a `find_elements` result: when the query itself goes through
   it returns the match count, 0 included (`find_elements` does not raise on
   absence); `none` models the query raising, e.g. on a stale element
   reference;
3. `int(float(...aria-label of span.kvMYJc...))`, abstracted to its integer
   outcome (`none` when the element is absent or the label is not numeric). -/
def seqRatingMethods (ariaStarLabel : Option String) (starActiveCount : Option Nat)
    (kvRating : Option Int) : List (Option Int) :=
  [ariaStarLabel.bind (fun s => (firstNat s).map Int.ofNat),
   starActiveCount.map Int.ofNat,
   kvRating]

/-!
## Review-text extraction

`google_maps_scraper.py` lines 393-434: `review_text = ""`, then for each of
the four `text_selectors` (`span.wiI7pd`, `span.review-full-text`,
`div.MyEned`, `div.review-content`): if the selector matches elements,
`review_text = elements[0].text.strip()`, and the loop `break`s on the first
non-empty value.  If the first pass ends empty, every displayed
`w8nwRe`/"More" button is clicked and the same selector loop is re-run after
each click.  The GPU variant (`gpu-scraper.py` lines 435-442) runs the same
selector list in JavaScript but only assigns when the trimmed text is
non-empty.
-/

/-- The sequential text-selector loop.  First argument: current value of the
Python variable `review_text`; list entries: per-selector outcome (`none` =
no elements, `some s` = text of the first matched element, not yet
stripped). -/
def textFirstPass : String → List (Option String) → String
  | cur, [] => cur
  | cur, none :: rest => textFirstPass cur rest
  | _, some s :: rest =>
      if pyStrip s = "" then textFirstPass (pyStrip s) rest else pyStrip s

/-- Full sequential text extraction: the first pass over the selector
outcomes, then — only when that pass produced the empty string — one re-run
of the selector loop per displayed expand button (`buttonPasses` holds the
post-click selector outcomes of each such button, in order). -/
def seqTextOf (preOutcomes : List (Option String))
    (buttonPasses : List (List (Option String))) : String :=
  let t := textFirstPass "" preOutcomes
  if t = "" then buttonPasses.foldl (fun cur pass => textFirstPass cur pass) "" else t

/-- The GPU variant's JavaScript text loop: assigns only when
`textEl.textContent.trim()` is truthy, and `break`s immediately after. -/
def gpuTextLoop : List (Option String) → String
  | [] => ""
  | none :: rest => gpuTextLoop rest
  | some s :: rest => if pyStrip s = "" then gpuTextLoop rest else pyStrip s

/-!
## Review-date resolution, sequential scraper

`google_maps_scraper.py` lines 438-470.  `review_date` defaults to the run
time (`datetime.now().strftime("%Y-%m-%d")`); for each of the three
`date_selectors` (`span.rsqaWe`, `span.review-date`, `span[class*='date']`)
whose first element has non-empty stripped text, the relative phrase is
resolved: `week/semaine` → N·7 days, `month/mois` → N·30 days, `year/an` →
N·365 days, `day/jour/today` → N days (0 for "today"), each subtracted from
the run time; a text matching no keyword leaves the default.  In every
branch the number N is `int(re.search(r'(\d+)', date_text).group(1))`, which
raises when the text holds no digit; the raise is caught and the loop moves
to the next selector.  After any non-raising branch the loop `break`s.

Dates are integers at day granularity; `T` is the run time.
-/

/-- One execution of the body guarded by `if date_text:`.  `Except.error ()`
models the `re.search(...).group(1)` raise (caught by the enclosing `try`);
`Except.ok (some d)` models an assignment of a resolved date followed by
`break`; `Except.ok none` models the `break` with no branch taken (the
default date is kept). -/
def dateBranch (T : Int) (txt : String) : Except Unit (Option Int) :=
  let lower := strLower txt
  if pyIn "week" lower || pyIn "semaine" lower then
    match firstNat txt with
    | some w => .ok (some (T - 7 * w))
    | none => .error ()
  else if pyIn "month" lower || pyIn "mois" lower then
    match firstNat txt with
    | some m => .ok (some (T - 30 * m))
    | none => .error ()
  else if pyIn "year" lower || pyIn "an" lower then
    match firstNat txt with
    | some y => .ok (some (T - 365 * y))
    | none => .error ()
  else if pyIn "day" lower || pyIn "jour" lower || pyIn "today" lower then
    if pyIn "today" lower then .ok (some (T - 0))
    else
      match firstNat txt with
      | some d => .ok (some (T - d))
      | none => .error ()
  else .ok none

/-- The `for selector in date_selectors` loop.  Entries: `none` = the
selector matched no elements, `some raw` = text of the first matched
element. -/
def dateLoop (T : Int) : List (Option String) → Int
  | [] => T
  | none :: rest => dateLoop T rest
  | some raw :: rest =>
      let txt := pyStrip raw
      if txt = "" then dateLoop T rest
      else
        match dateBranch T txt with
        | .error _ => dateLoop T rest
        | .ok (some d) => d
        | .ok none => T

/-!
## Language detection and record materialization
-/

/-- Sequential scraper, lines 472-478: `language = "unknown"`, and when the
review text is non-empty, `language = detect(review_text)` with
`LangDetectException` leaving `"unknown"`. -/
def seqLanguage (cl : String → Option String) (text : String) : String :=
  if text = "" then "unknown" else (cl text).getD "unknown"

/-- GPU scraper, CPU language pass (lines 508-514): the `language` key is
added only when `review.get('text')` is truthy; `none` models a record dict
that carries no `language` key at all. -/
def gpuLanguage (cl : String → Option String) (text : String) : Option String :=
  if text = "" then none else some ((cl text).getD "unknown")

/-- An agency as built by `search_bank_agencies` (sequential dict of lines
135-141 plus the `url` added after the click; the GPU variant's dict has no
rating, modelled as `rating := none`).  The source parses the agency rating
as a float; no claim concerns its value, so it is carried as its integer
outcome. -/
structure Agency where
  name : String
  location : String
  city : String
  bank : String
  rating : Option Int
  url : String
deriving DecidableEq, Repr

/-- One review DOM node of the sequential scraper, described by the outcomes
of every query `get_reviews` performs on it (lines 356-470). -/
structure SeqNode where
  /-- text of the first match of `div.d4r55, .WNxzHc` (reviewer name). -/
  reviewerText : Option String
  /-- `aria-label` of `span[aria-label*='star' i]` (rating method 1). -/
  ariaStarLabel : Option String
  /-- number of matches of `img[src*='star_active'], span.vzX5Ic`
      (rating method 2); `none` when the query raises. -/
  starActiveCount : Option Nat
  /-- integer outcome of rating method 3 (`span.kvMYJc` aria-label). -/
  kvRating : Option Int
  /-- per-selector outcomes of the four text selectors, in declared order. -/
  textOutcomes : List (Option String)
  /-- post-click text-selector outcomes, one pass per displayed expand
      button. -/
  buttonPasses : List (List (Option String))
  /-- per-selector outcomes of the three date selectors, in declared order. -/
  dateOutcomes : List (Option String)
deriving DecidableEq, Repr

/-- A review record as materialized by the sequential scraper
(lines 483-494). -/
structure SeqReview where
  agency_name : String
  bank : String
  location : String
  city : String
  reviewer : String
  text : String
  rating : Option Int
  date : Int
  language : String
  url : String
deriving DecidableEq, Repr

/-- Rating of one sequential review node: the `rating_methods` loop run on
the node's three method outcomes. -/
def seqNodeRating (n : SeqNode) : Option Int :=
  ratingFold none (seqRatingMethods n.ariaStarLabel n.starActiveCount n.kvRating)

/-- Per-node body of the sequential `get_reviews` loop (lines 356-498):
extract reviewer, rating, text, date and language, then materialize the
record only under `if review_text or rating:`.  `none` models the `continue`
that drops the node. -/
def seqProcessNode (ag : Agency) (cl : String → Option String) (T : Int)
    (n : SeqNode) : Option SeqReview :=
  let reviewer := (n.reviewerText.map pyStrip).getD "Anonymous"
  let rating := seqNodeRating n
  let text := seqTextOf n.textOutcomes n.buttonPasses
  let date := dateLoop T n.dateOutcomes
  let lang := seqLanguage cl text
  if text ≠ "" ∨ pyTruthyInt rating = true then
    some { agency_name := ag.name, bank := ag.bank, location := ag.location,
           city := ag.city, reviewer := reviewer, text := text,
           rating := rating, date := date, language := lang, url := ag.url }
  else none

/-- Sequential `get_reviews` over the review containers found after
scrolling: the loop `for review_element in review_containers[:max_reviews]`
with its per-node processing; a per-node exception is caught and skips the
node, which the total per-node function already covers. -/
def seq_get_reviews (ag : Agency) (cl : String → Option String) (T : Int)
    (maxReviews : Nat) (nodes : List SeqNode) : List SeqReview :=
  (nodes.take maxReviews).filterMap (seqProcessNode ag cl T)

/-- One review DOM node of the GPU scraper, described by the outcomes of the
queries its extraction JavaScript performs (gpu-scraper.py lines 412-450). -/
structure GpuNode where
  /-- `aria-label` of `span[aria-label*="star" i]`. -/
  ariaStarLabel : Option String
  /-- number of matches of `img[src*="star_active"], span.vzX5Ic`. -/
  starActiveCount : Nat
  /-- per-selector outcomes of the four text selectors. -/
  textOutcomes : List (Option String)
deriving DecidableEq, Repr

/-- A review record as materialized by the GPU scraper (lines 457-464); its
dict has no location/reviewer/date field.  `language = none` models the
absence of the `language` key. -/
structure GpuReview where
  agency_name : String
  bank : String
  city : String
  text : String
  rating : Option Int
  url : String
  language : Option String
deriving DecidableEq, Repr

/-- The GPU extraction JavaScript's rating logic (lines 417-432):
`parseInt` of the first digit run of the star aria-label when the element
exists and the label holds digits; then, only when the result is falsy
(null or 0), the count of filled-star elements when positive. -/
def gpuRating (label : Option String) (stars : Nat) : Option Int :=
  let r : Option Int := label.bind (fun s => (firstNat s).map Int.ofNat)
  if pyTruthyInt r = true then r
  else if stars > 0 then some (Int.ofNat stars) else r

/-- Per-node extraction of the GPU `get_reviews` loop (lines 397-467),
before the language pass: skip when both the text and the rating are falsy
(`if not review_info['text'] and not review_info['rating']: continue`),
otherwise build the record (no `language` key yet). -/
def gpuExtractNode (ag : Agency) (n : GpuNode) : Option GpuReview :=
  let rating := gpuRating n.ariaStarLabel n.starActiveCount
  let text := gpuTextLoop n.textOutcomes
  if text = "" ∧ pyTruthyInt rating = false then none
  else
    some { agency_name := ag.name, bank := ag.bank, city := ag.city,
           text := text, rating := rating, url := ag.url, language := none }

/-- GPU `get_reviews`: extraction over `review_containers[:max_reviews]`,
then the CPU language pass over the collected records (lines 506-514; the
cuDF path needs the optional GPU libraries and is not modelled). -/
def gpu_get_reviews (ag : Agency) (cl : String → Option String)
    (maxReviews : Nat) (nodes : List GpuNode) : List GpuReview :=
  ((nodes.take maxReviews).filterMap (gpuExtractNode ag)).map
    (fun r => { r with language := gpuLanguage cl r.text })

/-!
## Agency search (`search_bank_agencies`)

Sequential scraper lines 73-182: at most `min(len(results), 10)` candidate
items are processed; each must yield a name (`div.qBF1Pd`), pass the
relevance filter
`any(bank.lower() in name.lower() for bank in [bank_name.lower(), "bank",
"banque", "atm", "agence"])`, and be clickable (direct click, with a
JavaScript-click fallback) to capture its URL.  GPU variant lines 180-287:
the cap is 8, same filter, JavaScript click first with an ActionChains
fallback, and the location falls back to `f"{city}, Morocco"` when the
stripped text is empty (`... or location`).
-/

/-- One candidate item in the search-result list, described by the outcomes
of the queries both `search_bank_agencies` variants perform on it. -/
structure SearchCandidate where
  /-- text of the name element; `none` = extraction raised, which skips the
      candidate. -/
  nameText : Option String
  /-- text of the primary location selector. -/
  locMain : Option String
  /-- text of the fallback location selector (sequential variant only). -/
  locAlt : Option String
  /-- parsed star text of `span.MW4etd` (sequential variant; the source
      parses a float, carried here as its integer outcome). -/
  ratingOutcome : Option Int
  /-- the first click attempt succeeded. -/
  clickOk : Bool
  /-- the fallback click attempt succeeded. -/
  clickFallbackOk : Bool
  /-- `driver.current_url` after a successful click. -/
  url : String
deriving DecidableEq, Repr

/-- The relevance filter shared by both variants (sequential line 115, GPU
line 237). -/
def isRelevant (bankName name : String) : Bool :=
  let n := strLower name
  pyIn (strLower bankName) n || pyIn "bank" n || pyIn "banque" n ||
    pyIn "atm" n || pyIn "agence" n

/-- Sequential per-candidate body (lines 104-176): name, relevance filter,
location with two fallbacks then `f"{city}, Morocco"`, rating, then the
click with JavaScript fallback; any failure path skips the candidate
(`none`). -/
def seqProcessCandidate (bankName city : String) (c : SearchCandidate) :
    Option Agency :=
  match c.nameText with
  | none => none
  | some raw =>
      let name := pyStrip raw
      if isRelevant bankName name = true then
        let location :=
          match c.locMain with
          | some l => pyStrip l
          | none =>
              match c.locAlt with
              | some l => pyStrip l
              | none => city ++ ", Morocco"
        if c.clickOk || c.clickFallbackOk then
          some { name := name, location := location, city := city,
                 bank := bankName, rating := c.ratingOutcome, url := c.url }
        else none
      else none

/-- Sequential `search_bank_agencies`: process the first
`min(len(results), 10)` candidates, keeping those that survive every step. -/
def seq_search_bank_agencies (bankName city : String)
    (cands : List SearchCandidate) : List Agency :=
  (cands.take 10).filterMap (seqProcessCandidate bankName city)

/-- GPU per-candidate body (lines 218-281): name, relevance filter, location
defaulting to `f"{city}, Morocco"` also when the stripped text is empty
(`loc_elements[0].text.strip() or location`), then the click (JavaScript
first, ActionChains fallback).  The GPU agency dict has no rating key. -/
def gpuProcessCandidate (bankName city : String) (c : SearchCandidate) :
    Option Agency :=
  match c.nameText with
  | none => none
  | some raw =>
      let name := pyStrip raw
      if isRelevant bankName name = true then
        let location :=
          match c.locMain with
          | some l => if pyStrip l = "" then city ++ ", Morocco" else pyStrip l
          | none => city ++ ", Morocco"
        if c.clickOk || c.clickFallbackOk then
          some { name := name, location := location, city := city,
                 bank := bankName, rating := none, url := c.url }
        else none
      else none

/-- GPU `search_bank_agencies`: cap of 8 candidates (line 216). -/
def gpu_search_bank_agencies (bankName city : String)
    (cands : List SearchCandidate) : List Agency :=
  (cands.take 8).filterMap (gpuProcessCandidate bankName city)

/-!
## The review scroll loops

Sequential scraper lines 321-343:
`for i in range(min(15, max(1, max_reviews // 3))): scroll; sleep; click the
first few expand buttons` — the body never re-counts the review list and the
loop has no break, so the number of scroll iterations is exactly the bound,
whatever the feed does.  GPU variant lines 367-383: the injected JavaScript
runs `for (var i = 0; i < 6; i++) { container.scrollTop = ... }`, again with
no item recount and no exit condition.

`feed i` is the review-item count after `i` scroll iterations; the loops
below take it as an argument to record that the source never consults it.
-/

/-- The scroll loop body iterated `n` more times, having already performed
`done` iterations. -/
def seqScrollSteps (feed : Nat → Nat) : Nat → Nat → Nat
  | 0, done => done
  | n + 1, done => seqScrollSteps feed n (done + 1)

/-- Number of scroll iterations the sequential scraper performs:
`range(min(15, max(1, max_reviews // 3)))`. -/
def seqScrollIterations (feed : Nat → Nat) (maxReviews : Nat) : Nat :=
  seqScrollSteps feed (min 15 (max 1 (maxReviews / 3))) 0

/-- Number of scroll pulses of the GPU variant's injected JavaScript loop. -/
def gpuScrollPulses (feed : Nat → Nat) : Nat :=
  seqScrollSteps feed 6 0

/-- The feed's item count never grows after `k` scroll iterations. -/
def stopsGrowingAfter (feed : Nat → Nat) (k : Nat) : Prop :=
  ∀ i, k ≤ i → feed i = feed k

/-!
## Run orchestration

Sequential `main` (lines 529-605): nested loops over banks × cities collect
`all_reviews`; only after all of them does the output dispatch run —
`.json`/`.csv` are written, any other extension logs
"Unsupported output format" and the function returns normally (exit code 0).
A `KeyboardInterrupt` anywhere in the loop jumps to the handler that writes
`partial_reviews_<timestamp>.json` with whatever accumulated (when
non-empty) and writes nothing else.

GPU `run` (lines 540-626): tasks over banks × cities; the save step also
runs only after all tasks, and an unrecognized extension *appends* `.json`
and saves anyway; the `KeyboardInterrupt` handler is the same.

External interruption is modelled as arriving between work units: `stopAt =
some k` means the signal lands after `k` targets completed (`k` below the
target count; otherwise the run completes normally).
-/

/-- Observable run events, in order. -/
inductive RunEvent (ρ : Type)
  | crawledTarget (bank city : String)
  | wroteJson (path : String) (records : List ρ)
  | wroteCsv (path : String) (records : List ρ)
  | reportedFormatError
deriving DecidableEq, Repr

/-- The write events of a trace. -/
def writeEvents {ρ : Type} (events : List (RunEvent ρ)) : List (RunEvent ρ) :=
  events.filter fun e =>
    match e with
    | .wroteJson _ _ => true
    | .wroteCsv _ _ => true
    | _ => false

/-- Targets in processing order: `for bank_name in bank_names: for city in
cities:` (both variants build the same order). -/
def runTargets (banks cities : List String) : List (String × String) :=
  banks.flatMap fun b => cities.map fun c => (b, c)

/-- All reviews one sequential target contributes: agencies from the search,
then `get_reviews` per agency.  `oa`/`on` are the page oracles giving each
target's candidate items and each agency's review nodes. -/
def seqTargetReviews (oa : String → String → List SearchCandidate)
    (onr : Agency → List SeqNode) (cl : String → Option String) (T : Int)
    (maxReviews : Nat) (t : String × String) : List SeqReview :=
  (seq_search_bank_agencies t.1 t.2 (oa t.1 t.2)).flatMap fun ag =>
    seq_get_reviews ag cl T maxReviews (onr ag)

/-- `all_reviews` accumulated over a target list. -/
def seqAccumulated (oa : String → String → List SearchCandidate)
    (onr : Agency → List SeqNode) (cl : String → Option String) (T : Int)
    (maxReviews : Nat) (targets : List (String × String)) : List SeqReview :=
  targets.flatMap (seqTargetReviews oa onr cl T maxReviews)

/-- Sequential output dispatch (lines 582-588), reached only after the
scrape loop: write by extension, otherwise log the unsupported-format error
(and write nothing). -/
def seqSaveEvent (output : String) (acc : List SeqReview) : RunEvent SeqReview :=
  if strEnds output ".json" = true then .wroteJson output acc
  else if strEnds output ".csv" = true then .wroteCsv output acc
  else .reportedFormatError

/-- Result of one sequential `main` run. -/
structure SeqRunOutcome where
  events : List (RunEvent SeqReview)
  exitCode : Nat
deriving DecidableEq, Repr

/-- Sequential `main`: crawl every target in order, then dispatch the save;
on interruption after `k` targets, write only the timestamped file
`partial_reviews_<ts>.json` when something accumulated.  The process exits 0
on every path modelled here (`exit(1)` exists only in `_setup_webdriver`,
before any of this). -/
def seq_main (banks cities : List String) (output ts : String)
    (oa : String → String → List SearchCandidate) (onr : Agency → List SeqNode)
    (cl : String → Option String) (T : Int) (maxReviews : Nat)
    (stopAt : Option Nat) : SeqRunOutcome :=
  let targets := runTargets banks cities
  match stopAt with
  | some k =>
      if k < targets.length then
        let done := targets.take k
        let acc := seqAccumulated oa onr cl T maxReviews done
        { events :=
            (done.map fun t => RunEvent.crawledTarget t.1 t.2) ++
              (if acc.isEmpty then []
               else [.wroteJson ("partial_reviews_" ++ ts ++ ".json") acc]),
          exitCode := 0 }
      else
        let acc := seqAccumulated oa onr cl T maxReviews targets
        { events := (targets.map fun t => RunEvent.crawledTarget t.1 t.2) ++
            [seqSaveEvent output acc],
          exitCode := 0 }
  | none =>
      let acc := seqAccumulated oa onr cl T maxReviews targets
      { events := (targets.map fun t => RunEvent.crawledTarget t.1 t.2) ++
          [seqSaveEvent output acc],
        exitCode := 0 }

/-- All reviews one GPU task (`process_bank_city`, lines 523-538)
contributes. -/
def gpuTaskReviews (oa : String → String → List SearchCandidate)
    (onr : Agency → List GpuNode) (cl : String → Option String)
    (maxReviews : Nat) (t : String × String) : List GpuReview :=
  (gpu_search_bank_agencies t.1 t.2 (oa t.1 t.2)).flatMap fun ag =>
    gpu_get_reviews ag cl maxReviews (onr ag)

/-- `all_reviews` accumulated over the GPU task list. -/
def gpuAccumulated (oa : String → String → List SearchCandidate)
    (onr : Agency → List GpuNode) (cl : String → Option String)
    (maxReviews : Nat) (tasks : List (String × String)) : List GpuReview :=
  tasks.flatMap (gpuTaskReviews oa onr cl maxReviews)

/-- GPU save step (lines 574-604): nothing is written when no reviews
accumulated; otherwise write by extension, and an unrecognized extension
silently becomes `<output>.json` (lines 599-601).  The cuDF filtering block
needs the optional GPU libraries and is not modelled. -/
def gpuSaveEvents (output : String) (acc : List GpuReview) :
    List (RunEvent GpuReview) :=
  if acc.isEmpty then []
  else if strEnds output ".json" = true then [.wroteJson output acc]
  else if strEnds output ".csv" = true then [.wroteCsv output acc]
  else [.wroteJson (output ++ ".json") acc]

/-- Result of one GPU `run`. -/
structure GpuRunOutcome where
  events : List (RunEvent GpuReview)
  exitCode : Nat
deriving DecidableEq, Repr

/-- GPU `run`: process every task, then the save step; the
`KeyboardInterrupt` handler writes only `partial_reviews_<ts>.json` when
something accumulated.  `run` returns normally on every modelled path. -/
def gpu_run (banks cities : List String) (output ts : String)
    (oa : String → String → List SearchCandidate) (onr : Agency → List GpuNode)
    (cl : String → Option String) (maxReviews : Nat)
    (stopAt : Option Nat) : GpuRunOutcome :=
  let tasks := runTargets banks cities
  match stopAt with
  | some k =>
      if k < tasks.length then
        let done := tasks.take k
        let acc := gpuAccumulated oa onr cl maxReviews done
        { events :=
            (done.map fun t => RunEvent.crawledTarget t.1 t.2) ++
              (if acc.isEmpty then []
               else [.wroteJson ("partial_reviews_" ++ ts ++ ".json") acc]),
          exitCode := 0 }
      else
        let acc := gpuAccumulated oa onr cl maxReviews tasks
        { events := (tasks.map fun t => RunEvent.crawledTarget t.1 t.2) ++
            gpuSaveEvents output acc,
          exitCode := 0 }
  | none =>
      let acc := gpuAccumulated oa onr cl maxReviews tasks
      { events := (tasks.map fun t => RunEvent.crawledTarget t.1 t.2) ++
          gpuSaveEvents output acc,
        exitCode := 0 }

/-!
## Concrete inputs used by witnesses and counterexamples
-/

/-- A language classifier that always recognizes English. -/
def clW : String → Option String := fun _ => some "en"

/-- The agency both candidate pipelines below produce for bank `"b"` in
city `"c"`. -/
def agW : Agency :=
  { name := "Bank X", location := "c, Morocco", city := "c", bank := "b",
    rating := none, url := "u" }

/-- A clickable, relevant search candidate. -/
def candW : SearchCandidate :=
  { nameText := some "Bank X", locMain := none, locAlt := none,
    ratingOutcome := none, clickOk := true, clickFallbackOk := false,
    url := "u" }

/-- An irrelevant search candidate (name matches neither the bank nor any
domain keyword). -/
def candIrr : SearchCandidate :=
  { nameText := some "Pizza Hut", locMain := none, locAlt := none,
    ratingOutcome := none, clickOk := true, clickFallbackOk := false,
    url := "v" }

/-- A review node whose only rating source is a filled-star count of 7
(the combined selector of method 2 can double-count, e.g. five
`star_active` images plus matching `span.vzX5Ic` elements). -/
def nodeSeven : SeqNode :=
  { reviewerText := none, ariaStarLabel := none, starActiveCount := some 7,
    kvRating := none, textOutcomes := [some "bad service"],
    buttonPasses := [], dateOutcomes := [] }

/-- A review node with text but no rating markup at all: methods 1 and 3
raise, the star query succeeds with zero matches. -/
def nodeZero : SeqNode :=
  { reviewerText := none, ariaStarLabel := none, starActiveCount := some 0,
    kvRating := none, textOutcomes := [some "ok"], buttonPasses := [],
    dateOutcomes := [] }

/-- A well-behaved review node: named reviewer, 5-star aria-label, text. -/
def nodeFive : SeqNode :=
  { reviewerText := some "Ali", ariaStarLabel := some "5 stars",
    starActiveCount := some 0, kvRating := none,
    textOutcomes := [some "good"], buttonPasses := [], dateOutcomes := [] }

/-- A review node with no text and every rating query raising. -/
def nodeEmpty : SeqNode :=
  { reviewerText := none, ariaStarLabel := none, starActiveCount := none,
    kvRating := none, textOutcomes := [], buttonPasses := [],
    dateOutcomes := [] }

/-- A GPU review node with text and a 5-star count. -/
def gnodeGood : GpuNode :=
  { ariaStarLabel := none, starActiveCount := 5,
    textOutcomes := [some "good"] }

/-- A GPU review node carrying a rating but no text. -/
def gnodeRatedNoText : GpuNode :=
  { ariaStarLabel := some "5 stars", starActiveCount := 0,
    textOutcomes := [] }

/-- A GPU review node with neither text nor rating. -/
def gnodeEmpty : GpuNode :=
  { ariaStarLabel := none, starActiveCount := 0, textOutcomes := [] }

/-!
## Helper lemmas
-/

/-- The rating loop resolves to the first in-range method outcome, and
otherwise to the last outcome that returned at all. -/
theorem ratingFold_eq (ms : List (Option Int)) : ∀ r : Option Int,
    ratingFold r ms =
      match firstInRange ms with
      | some v => some v
      | none => lastSomeD r ms := by
  induction ms with
  | nil => intro r; rfl
  | cons m ms ih =>
      intro r
      cases m with
      | none => simp only [ratingFold, firstInRange, lastSomeD]; exact ih r
      | some v =>
          by_cases h : v ≠ 0 ∧ 1 ≤ v ∧ v ≤ 5
          · simp only [ratingFold, firstInRange, if_pos h]
          · simp only [ratingFold, firstInRange, lastSomeD, if_neg h]
            exact ih (some v)

/-- Any value `firstInRange` produces lies in `[1, 5]`. -/
theorem firstInRange_bounds : ∀ ms : List (Option Int), ∀ v : Int,
    firstInRange ms = some v → 1 ≤ v ∧ v ≤ 5 := by
  intro ms
  induction ms with
  | nil => intro v h; exact absurd h (by simp [firstInRange])
  | cons m ms ih =>
      intro v h
      cases m with
      | none => exact ih v h
      | some w =>
          by_cases hw : w ≠ 0 ∧ 1 ≤ w ∧ w ≤ 5
          · rw [firstInRange, if_pos hw] at h
            obtain rfl := Option.some.inj h
            exact hw.2
          · rw [firstInRange, if_neg hw] at h
            exact ih v h

/-- A text-selector outcome that leaves `review_text` empty: no element, or
an element whose stripped text is empty. -/
def textFails : Option String → Bool
  | none => true
  | some s => pyStrip s == ""

/-- If every selector outcome fails, the text loop returns the empty
sentinel. -/
theorem textFirstPass_fails : ∀ os : List (Option String),
    os.all textFails = true → textFirstPass "" os = "" := by
  intro os
  induction os with
  | nil => intro _; rfl
  | cons o os ih =>
      intro h
      rw [List.all_cons, Bool.and_eq_true] at h
      cases o with
      | none => exact (by simpa only [textFirstPass] using ih h.2)
      | some s =>
          have hs : pyStrip s = "" := by
            have := h.1
            simpa [textFails] using this
          simp only [textFirstPass, if_pos hs, hs]
          exact ih h.2

/-- The first selector outcome with non-empty stripped text wins,
whatever comes after it. -/
theorem textFirstPass_firstWin : ∀ pre : List (Option String),
    ∀ s : String, ∀ post : List (Option String),
    pre.all textFails = true → (pyStrip s == "") = false →
    textFirstPass "" (pre ++ some s :: post) = pyStrip s := by
  intro pre
  induction pre with
  | nil =>
      intro s post _ hs
      have hs' : ¬ pyStrip s = "" := by simpa using hs
      simp only [List.nil_append, textFirstPass, if_neg hs']
  | cons o pre ih =>
      intro s post h hs
      rw [List.all_cons, Bool.and_eq_true] at h
      cases o with
      | none =>
          simp only [List.cons_append, textFirstPass]
          exact ih s post h.2 hs
      | some t =>
          have ht : pyStrip t = "" := by
            have := h.1
            simpa [textFails] using this
          simp only [List.cons_append, textFirstPass, if_pos ht, ht]
          exact ih s post h.2 hs

/-- The scroll-step recursion just counts its first argument down. -/
theorem seqScrollSteps_add (feed : Nat → Nat) :
    ∀ n d : Nat, seqScrollSteps feed n d = n + d := by
  intro n
  induction n with
  | zero => intro d; simp [seqScrollSteps]
  | succ n ih => intro d; rw [seqScrollSteps, ih]; omega

/-- Crawl events contribute no write events. -/
theorem writeEvents_crawl_append {ρ : Type} (ts : List (String × String))
    (rest : List (RunEvent ρ)) :
    writeEvents ((ts.map fun t => RunEvent.crawledTarget t.1 t.2) ++ rest) =
      writeEvents rest := by
  induction ts with
  | nil => rfl
  | cons t ts ih =>
      simp only [List.map_cons, List.cons_append, writeEvents,
        List.filter_cons]
      exact ih

/-- `seqProcessNode`, with its local bindings laid out. -/
theorem seqProcessNode_eq (ag : Agency) (cl : String → Option String)
    (T : Int) (n : SeqNode) :
    seqProcessNode ag cl T n =
      if seqTextOf n.textOutcomes n.buttonPasses ≠ "" ∨
          pyTruthyInt (seqNodeRating n) = true then
        some { agency_name := ag.name, bank := ag.bank,
               location := ag.location, city := ag.city,
               reviewer := (n.reviewerText.map pyStrip).getD "Anonymous",
               text := seqTextOf n.textOutcomes n.buttonPasses,
               rating := seqNodeRating n, date := dateLoop T n.dateOutcomes,
               language := seqLanguage cl (seqTextOf n.textOutcomes n.buttonPasses),
               url := ag.url }
      else none := rfl

/-- `gpuExtractNode`, with its local bindings laid out. -/
theorem gpuExtractNode_eq (ag : Agency) (n : GpuNode) :
    gpuExtractNode ag n =
      if gpuTextLoop n.textOutcomes = "" ∧
          pyTruthyInt (gpuRating n.ariaStarLabel n.starActiveCount) = false then
        none
      else
        some { agency_name := ag.name, bank := ag.bank, city := ag.city,
               text := gpuTextLoop n.textOutcomes,
               rating := gpuRating n.ariaStarLabel n.starActiveCount,
               url := ag.url, language := none } := rfl

/-- All-raising rating method lists leave the rating at `None`. -/
theorem ratingFold_allNone : ∀ ms : List (Option Int),
    ms.all Option.isNone = true → ratingFold none ms = none := by
  intro ms
  induction ms with
  | nil => intro _; rfl
  | cons m ms ih =>
      intro h
      rw [List.all_cons, Bool.and_eq_true] at h
      cases m with
      | none => exact (by simpa only [ratingFold] using ih h.2)
      | some v => exact absurd h.1 (by simp [Option.isNone])

/-!
## The claims
-/

/-- C1: every record materialized by either `get_reviews` has non-empty text
or a non-null rating, and a node whose extracted text is empty and whose
extracted rating is null is dropped at the point of extraction and never
appears in the returned list. -/
theorem claim1_never_both_empty (ag : Agency) (cl : String → Option String)
    (T : Int) (mr : Nat) (nodes : List SeqNode) (gnodes : List GpuNode) :
    (∀ r ∈ seq_get_reviews ag cl T mr nodes, r.text ≠ "" ∨ r.rating ≠ none) ∧
    (∀ r ∈ gpu_get_reviews ag cl mr gnodes, r.text ≠ "" ∨ r.rating ≠ none) ∧
    (∀ n : SeqNode, seqTextOf n.textOutcomes n.buttonPasses = "" →
        seqNodeRating n = none → seqProcessNode ag cl T n = none) ∧
    (∀ n : GpuNode, gpuTextLoop n.textOutcomes = "" →
        gpuRating n.ariaStarLabel n.starActiveCount = none →
        gpuExtractNode ag n = none) := by
  refine ⟨?_, ?_, ?_, ?_⟩
  · intro r hr
    unfold seq_get_reviews at hr
    rcases List.mem_filterMap.mp hr with ⟨n, _, hs⟩
    rw [seqProcessNode_eq] at hs
    split_ifs at hs with hc
    · obtain rfl : _ = r := Option.some.inj hs
      rcases hc with h | h
      · exact Or.inl h
      · right
        cases hrat : seqNodeRating n with
        | none => rw [hrat] at h; exact absurd h (by simp [pyTruthyInt])
        | some v => simp [hrat]
  · intro r hr
    unfold gpu_get_reviews at hr
    rcases List.mem_map.mp hr with ⟨r0, hr0, rfl⟩
    rcases List.mem_filterMap.mp hr0 with ⟨n, _, hs⟩
    rw [gpuExtractNode_eq] at hs
    by_cases hc : gpuTextLoop n.textOutcomes = "" ∧
        pyTruthyInt (gpuRating n.ariaStarLabel n.starActiveCount) = false
    · rw [if_pos hc] at hs; exact absurd hs (by simp)
    · rw [if_neg hc] at hs
      obtain rfl : _ = r0 := Option.some.inj hs
      by_cases ht : gpuTextLoop n.textOutcomes = ""
      · right
        have hrat : pyTruthyInt (gpuRating n.ariaStarLabel n.starActiveCount) = true := by
          rcases Bool.eq_false_or_eq_true
              (pyTruthyInt (gpuRating n.ariaStarLabel n.starActiveCount)) with h | h
          · exact h
          · exact absurd ⟨ht, h⟩ hc
        cases hr' : gpuRating n.ariaStarLabel n.starActiveCount with
        | none => rw [hr'] at hrat; exact absurd hrat (by simp [pyTruthyInt])
        | some v => simp [hr']
      · exact Or.inl ht
  · intro n hText hRat
    rw [seqProcessNode_eq, if_neg]
    rw [hText, hRat]
    simp [pyTruthyInt]
  · intro n hText hRat
    rw [gpuExtractNode_eq, if_pos]
    exact ⟨hText, by rw [hRat]; rfl⟩

/-- The record `seq_get_reviews` materializes from `nodeFive`. -/
def rFive : SeqReview :=
  { agency_name := "Bank X", bank := "b", location := "c, Morocco",
    city := "c", reviewer := "Ali", text := "good", rating := some 5,
    date := 0, language := "en", url := "u" }

/-- Witness for C1 at concrete inputs. -/
theorem claim1_witness :
    (rFive.text ≠ "" ∨ rFive.rating ≠ none) ∧
    seqProcessNode agW clW 0 nodeEmpty = none ∧
    gpuExtractNode agW gnodeEmpty = none :=
  ⟨(claim1_never_both_empty agW clW 0 20 [nodeFive] []).1 rFive (by decide),
   (claim1_never_both_empty agW clW 0 20 [nodeFive] []).2.2.1 nodeEmpty
     (by decide) (by decide),
   (claim1_never_both_empty agW clW 0 20 [nodeFive] []).2.2.2 gnodeEmpty
     (by decide) (by decide)⟩

/-- C2 counterexample: a node whose only rating source is a filled-star
count of 7 (methods 1 and 3 raise) produces an output record whose rating is
7 — neither null nor in `[1, 5]`, and not clamped. -/
theorem claim2_counterexample :
    (seq_get_reviews agW clW 0 20 [nodeSeven]).map (fun r => r.rating)
        = [some 7] ∧
    ¬ ((some (7 : Int) = none) ∨ (1 ≤ (7 : Int) ∧ (7 : Int) ≤ 5)) :=
  ⟨by decide, by decide⟩

/-- C2 (amended): the first rating source producing a value in `[1, 5]`
wins; when no source does, the rating is the last successfully computed
value, unclamped (so it may be 0 or exceed 5), and null exactly when every
source raised.  Any winning in-range value does lie in `[1, 5]`. -/
theorem claim2_first_in_range_wins (n : SeqNode) :
    seqNodeRating n =
      (match firstInRange (seqRatingMethods n.ariaStarLabel n.starActiveCount
          n.kvRating) with
       | some v => some v
       | none => lastSomeD none (seqRatingMethods n.ariaStarLabel
           n.starActiveCount n.kvRating)) ∧
    (∀ v : Int,
      firstInRange (seqRatingMethods n.ariaStarLabel n.starActiveCount
        n.kvRating) = some v → 1 ≤ v ∧ v ≤ 5) :=
  ⟨ratingFold_eq _ none, fun v h => firstInRange_bounds _ v h⟩

/-- Witness for C2's amended theorem at a concrete node. -/
theorem claim2_witness :
    firstInRange (seqRatingMethods nodeFive.ariaStarLabel
        nodeFive.starActiveCount nodeFive.kvRating) = some 5 ∧
    ((1 : Int) ≤ 5 ∧ (5 : Int) ≤ 5) :=
  ⟨by decide, (claim2_first_in_range_wins nodeFive).2 5 (by decide)⟩

/-- A date text containing none of the substrings the resolver recognizes
(`week`, `semaine`, `month`, `mois`, `year`, `an`, `day`, `jour`,
`today`). -/
def noRelDateKeyword (raw : String) : Bool :=
  let l := strLower (pyStrip raw)
  !(pyIn "week" l || pyIn "semaine" l || pyIn "month" l || pyIn "mois" l ||
    pyIn "year" l || pyIn "an" l || pyIn "day" l || pyIn "jour" l ||
    pyIn "today" l)

/-- C3: for a fixed run time `T`, "2 weeks ago" resolves to `T - 14` days,
"today" to `T`, and any date text without a recognized relative keyword to
`T` (the default). -/
theorem claim3_date_resolution (T : Int) :
    dateLoop T [some "2 weeks ago"] = T - 14 ∧
    dateLoop T [some "today"] = T ∧
    (∀ raw : String, noRelDateKeyword raw = true →
        dateLoop T [some raw] = T) := by
  refine ⟨?_, ?_, ?_⟩
  · show T - 7 * ((2 : Nat) : Int) = T - 14
    norm_num
  · show T - 0 = T
    exact sub_zero T
  · intro raw h
    unfold noRelDateKeyword at h
    simp only [Bool.not_eq_true', Bool.or_eq_false_iff] at h
    obtain ⟨⟨⟨⟨⟨⟨⟨⟨h1, h2⟩, h3⟩, h4⟩, h5⟩, h6⟩, h7⟩, h8⟩, h9⟩ := h
    have hb : dateBranch T (pyStrip raw) = .ok none := by
      unfold dateBranch
      simp [h1, h2, h3, h4, h5, h6, h7, h8, h9]
    by_cases he : pyStrip raw = ""
    · simp [dateLoop, he]
    · simp [dateLoop, he, hb]

/-- Witness for C3 at run time 100. -/
theorem claim3_witness :
    dateLoop 100 [some "2 weeks ago"] = 100 - 14 ∧
    dateLoop 100 [some "today"] = 100 ∧
    (noRelDateKeyword "great place" = true ∧
      dateLoop 100 [some "great place"] = 100) :=
  ⟨(claim3_date_resolution 100).1, (claim3_date_resolution 100).2.1,
   by decide, (claim3_date_resolution 100).2.2 "great place" (by decide)⟩

/-- C4 counterexample: a node with review text but no rating markup at all —
methods 1 and 3 find no element and the star query matches zero elements —
is materialized with rating 0, not the null sentinel the claim states for a
field whose every strategy failed. -/
theorem claim4_counterexample :
    (seq_get_reviews agW clW 0 20 [nodeZero]).map (fun r => r.rating)
        = [some 0] ∧
    some (0 : Int) ≠ none :=
  ⟨by decide, by decide⟩

/-- C4 (amended): strategies are tried in declared order and the first one
with a non-empty value wins; if every text strategy fails the text is the
empty-string sentinel and processing continues; the rating is null only when
every rating method raises — when the star-count query merely finds nothing,
the sequential rating becomes the count (0 included), while the GPU
variant's absent sources do yield null. -/
theorem claim4_first_success_wins :
    (∀ pre : List (Option String), ∀ s : String,
        ∀ post : List (Option String),
        pre.all textFails = true → (pyStrip s == "") = false →
        textFirstPass "" (pre ++ some s :: post) = pyStrip s) ∧
    (∀ os : List (Option String), os.all textFails = true →
        textFirstPass "" os = "") ∧
    (∀ ms : List (Option Int), ms.all Option.isNone = true →
        ratingFold none ms = none) ∧
    (∀ n : SeqNode, ∀ c : Nat, n.ariaStarLabel = none → n.kvRating = none →
        n.starActiveCount = some c → seqNodeRating n = some (Int.ofNat c)) ∧
    gpuRating none 0 = none := by
  refine ⟨textFirstPass_firstWin, textFirstPass_fails, ratingFold_allNone,
    ?_, rfl⟩
  intro n c h1 h2 h3
  unfold seqNodeRating seqRatingMethods
  rw [h1, h2, h3]
  by_cases hc : (Int.ofNat c) ≠ 0 ∧ 1 ≤ (Int.ofNat c) ∧ (Int.ofNat c) ≤ 5
  · simp [ratingFold, hc]
  · simp [ratingFold, hc]

/-- Witness for C4's amended theorem at concrete strategy lists. -/
theorem claim4_witness :
    textFirstPass "" [none, some " ", some "x", none] = pyStrip "x" ∧
    textFirstPass "" [none, some "  "] = "" ∧
    ratingFold none [none, none, none] = none ∧
    seqNodeRating nodeZero = some (Int.ofNat 0) :=
  ⟨claim4_first_success_wins.1 [none, some " "] "x" [none] (by decide)
     (by decide),
   claim4_first_success_wins.2.1 [none, some "  "] (by decide),
   claim4_first_success_wins.2.2.1 [none, none, none] (by decide),
   claim4_first_success_wins.2.2.2.1 nodeZero 0 rfl rfl rfl⟩

/-- C5 counterexample: with output path `out.txt` (neither `.json` nor
`.csv`), the sequential run crawls its target first and only then reports
the format error, exiting 0 and discarding a collected review; the GPU run
never reports at all — it silently writes `out.txt.json`. -/
theorem claim5_counterexample :
    (seq_main ["b"] ["c"] "out.txt" "TS" (fun _ _ => [candW])
        (fun _ => [nodeFive]) clW 0 20 none).events
      = [RunEvent.crawledTarget "b" "c", RunEvent.reportedFormatError] ∧
    (seq_main ["b"] ["c"] "out.txt" "TS" (fun _ _ => [candW])
        (fun _ => [nodeFive]) clW 0 20 none).exitCode = 0 ∧
    (gpu_run ["b"] ["c"] "out.txt" "TS" (fun _ _ => [candW])
        (fun _ => [gnodeGood]) clW 20 none).events
      = [RunEvent.crawledTarget "b" "c",
         RunEvent.wroteJson "out.txt.json"
           [{ agency_name := "Bank X", bank := "b", city := "c",
              text := "good", rating := some 5, url := "u",
              language := some "en" }]] :=
  ⟨by decide, by decide, by decide⟩

/-- C5 (amended): an unrecognized output extension is noticed only at save
time, after every target has been crawled: the sequential scraper then logs
the unsupported-format error, writes nothing and exits 0, while the GPU
variant appends `.json` to the path and writes JSON whenever anything
accumulated. -/
theorem claim5_late_extension_check (banks cities : List String)
    (output ts : String) (oa : String → String → List SearchCandidate)
    (onrS : Agency → List SeqNode) (onrG : Agency → List GpuNode)
    (cl : String → Option String) (T : Int) (mr : Nat)
    (h1 : strEnds output ".json" = false)
    (h2 : strEnds output ".csv" = false) :
    (seq_main banks cities output ts oa onrS cl T mr none).events
      = ((runTargets banks cities).map fun t =>
          RunEvent.crawledTarget t.1 t.2) ++ [RunEvent.reportedFormatError] ∧
    (seq_main banks cities output ts oa onrS cl T mr none).exitCode = 0 ∧
    (gpu_run banks cities output ts oa onrG cl mr none).events
      = ((runTargets banks cities).map fun t =>
          RunEvent.crawledTarget t.1 t.2) ++
          (if (gpuAccumulated oa onrG cl mr (runTargets banks cities)).isEmpty
           then []
           else [RunEvent.wroteJson (output ++ ".json")
                   (gpuAccumulated oa onrG cl mr
                     (runTargets banks cities))]) := by
  refine ⟨?_, rfl, ?_⟩
  · simp [seq_main, seqSaveEvent, h1, h2]
  · simp [gpu_run, gpuSaveEvents, h1, h2]

/-- Witness for C5's amended theorem at concrete inputs. -/
theorem claim5_witness :
    strEnds "out.txt" ".json" = false ∧ strEnds "out.txt" ".csv" = false ∧
    (seq_main ["b"] ["c"] "out.txt" "TS" (fun _ _ => []) (fun _ => [])
        clW 0 20 none).events
      = ((runTargets ["b"] ["c"]).map fun t =>
          RunEvent.crawledTarget t.1 t.2) ++ [RunEvent.reportedFormatError] :=
  ⟨by decide, by decide,
   (claim5_late_extension_check ["b"] ["c"] "out.txt" "TS" (fun _ _ => [])
     (fun _ => []) (fun _ => []) clW 0 20 (by decide) (by decide)).1⟩

/-- C6: when the interruption signal lands after `k` completed targets and
something has accumulated, both variants write exactly one file — the
timestamped `partial_reviews_<ts>.json` holding exactly the accumulated
records — so the full-output file is never written and nothing later
overwrites the checkpoint. -/
theorem claim6_interruption_checkpoint (banks cities : List String)
    (output ts : String) (oa : String → String → List SearchCandidate)
    (onrS : Agency → List SeqNode) (onrG : Agency → List GpuNode)
    (cl : String → Option String) (T : Int) (mr : Nat) (k : Nat)
    (hk : k < (runTargets banks cities).length)
    (hS : (seqAccumulated oa onrS cl T mr
        ((runTargets banks cities).take k)).isEmpty = false)
    (hG : (gpuAccumulated oa onrG cl mr
        ((runTargets banks cities).take k)).isEmpty = false) :
    writeEvents (seq_main banks cities output ts oa onrS cl T mr
        (some k)).events
      = [RunEvent.wroteJson ("partial_reviews_" ++ ts ++ ".json")
          (seqAccumulated oa onrS cl T mr
            ((runTargets banks cities).take k))] ∧
    writeEvents (gpu_run banks cities output ts oa onrG cl mr
        (some k)).events
      = [RunEvent.wroteJson ("partial_reviews_" ++ ts ++ ".json")
          (gpuAccumulated oa onrG cl mr
            ((runTargets banks cities).take k))] := by
  constructor
  · simp only [seq_main, if_pos hk, hS, Bool.false_eq_true, if_false]
    rw [writeEvents_crawl_append]
    rfl
  · simp only [gpu_run, if_pos hk, hG, Bool.false_eq_true, if_false]
    rw [writeEvents_crawl_append]
    rfl

/-- Search oracle that yields a candidate only for city `c1`. -/
def oaSplit : String → String → List SearchCandidate :=
  fun _ c => if c = "c1" then [candW] else []

/-- Witness for C6: interrupted after 1 of 2 targets, one review collected
from the completed target. -/
theorem claim6_witness :
    1 < (runTargets ["b"] ["c1", "c2"]).length ∧
    (seqAccumulated oaSplit (fun _ => [nodeFive]) clW 0 20
        ((runTargets ["b"] ["c1", "c2"]).take 1)).isEmpty = false ∧
    writeEvents (seq_main ["b"] ["c1", "c2"] "out.json" "TS" oaSplit
        (fun _ => [nodeFive]) clW 0 20 (some 1)).events
      = [RunEvent.wroteJson ("partial_reviews_" ++ "TS" ++ ".json")
          (seqAccumulated oaSplit (fun _ => [nodeFive]) clW 0 20
            ((runTargets ["b"] ["c1", "c2"]).take 1))] ∧
    writeEvents (gpu_run ["b"] ["c1", "c2"] "out.json" "TS" oaSplit
        (fun _ => [gnodeGood]) clW 20 (some 1)).events
      = [RunEvent.wroteJson ("partial_reviews_" ++ "TS" ++ ".json")
          (gpuAccumulated oaSplit (fun _ => [gnodeGood]) clW 20
            ((runTargets ["b"] ["c1", "c2"]).take 1))] :=
  ⟨by decide, by decide,
   (claim6_interruption_checkpoint ["b"] ["c1", "c2"] "out.json" "TS"
     oaSplit (fun _ => [nodeFive]) (fun _ => [gnodeGood]) clW 0 20 1
     (by decide) (by decide) (by decide)).1,
   (claim6_interruption_checkpoint ["b"] ["c1", "c2"] "out.json" "TS"
     oaSplit (fun _ => [nodeFive]) (fun _ => [gnodeGood]) clW 0 20 1
     (by decide) (by decide) (by decide)).2⟩

/-- C7 counterexample: a feed whose count never grows (stable from iteration
0, well below every bound) still gets the full fixed number of scroll
iterations — 15 for `max_reviews = 45` in the sequential scraper, 6 in the
GPU variant — not `k + 1 = 1`. -/
theorem claim7_counterexample :
    stopsGrowingAfter (fun _ => 3) 0 ∧
    0 + 1 < 15 ∧
    seqScrollIterations (fun _ => 3) 45 = 15 ∧
    gpuScrollPulses (fun _ => 3) = 6 ∧
    seqScrollIterations (fun _ => 3) 45 ≠ 0 + 1 ∧
    gpuScrollPulses (fun _ => 3) ≠ 0 + 1 :=
  ⟨fun _ _ => rfl, by norm_num, by decide, by decide, by decide, by decide⟩

/-- C7 (amended): neither scroll loop watches the item count at all — the
sequential loop always performs `min(15, max(1, max_reviews // 3))`
iterations and the GPU loop always performs 6 pulses, whatever the feed
does. -/
theorem claim7_fixed_iteration_count (feed : Nat → Nat) (maxReviews : Nat) :
    seqScrollIterations feed maxReviews = min 15 (max 1 (maxReviews / 3)) ∧
    gpuScrollPulses feed = 6 := by
  constructor
  · unfold seqScrollIterations
    rw [seqScrollSteps_add]
    omega
  · unfold gpuScrollPulses
    rw [seqScrollSteps_add]


/-- C8: every agency either `search_bank_agencies` returns has a name that
passes the relevance filter (contains the bank name or one of `bank`,
`banque`, `atm`, `agence`, case-insensitively), and a candidate failing the
filter is skipped outright — it contributes nothing to the returned list and
raises no error. -/
theorem claim8_relevance_filter (bankName city : String)
    (cands : List SearchCandidate) :
    (∀ a ∈ seq_search_bank_agencies bankName city cands,
        isRelevant bankName a.name = true) ∧
    (∀ a ∈ gpu_search_bank_agencies bankName city cands,
        isRelevant bankName a.name = true) ∧
    (∀ c : SearchCandidate, ∀ raw : String, c.nameText = some raw →
        isRelevant bankName (pyStrip raw) = false →
        seqProcessCandidate bankName city c = none ∧
        gpuProcessCandidate bankName city c = none) := by
  refine ⟨?_, ?_, ?_⟩
  · intro a ha
    unfold seq_search_bank_agencies at ha
    rcases List.mem_filterMap.mp ha with ⟨c, _, hc⟩
    cases hn : c.nameText with
    | none =>
        simp only [seqProcessCandidate, hn] at hc
        exact absurd hc (by simp)
    | some raw =>
        simp only [seqProcessCandidate, hn] at hc
        by_cases hrel : isRelevant bankName (pyStrip raw) = true
        · rw [if_pos hrel] at hc
          by_cases hclick : c.clickOk || c.clickFallbackOk
          · rw [if_pos hclick] at hc
            obtain rfl : _ = a := Option.some.inj hc
            exact hrel
          · rw [if_neg hclick] at hc; exact absurd hc (by simp)
        · rw [if_neg hrel] at hc; exact absurd hc (by simp)
  · intro a ha
    unfold gpu_search_bank_agencies at ha
    rcases List.mem_filterMap.mp ha with ⟨c, _, hc⟩
    cases hn : c.nameText with
    | none =>
        simp only [gpuProcessCandidate, hn] at hc
        exact absurd hc (by simp)
    | some raw =>
        simp only [gpuProcessCandidate, hn] at hc
        by_cases hrel : isRelevant bankName (pyStrip raw) = true
        · rw [if_pos hrel] at hc
          by_cases hclick : c.clickOk || c.clickFallbackOk
          · rw [if_pos hclick] at hc
            obtain rfl : _ = a := Option.some.inj hc
            exact hrel
          · rw [if_neg hclick] at hc; exact absurd hc (by simp)
        · rw [if_neg hrel] at hc; exact absurd hc (by simp)
  · intro c raw hn hrel
    constructor
    · simp only [seqProcessCandidate, hn]
      rw [if_neg (by simp [hrel])]
    · simp only [gpuProcessCandidate, hn]
      rw [if_neg (by simp [hrel])]

/-- Witness for C8: a relevant candidate's agency passes the filter, an
irrelevant candidate is dropped by both variants. -/
theorem claim8_witness :
    isRelevant "b" agW.name = true ∧
    seqProcessCandidate "b" "c" candIrr = none ∧
    gpuProcessCandidate "b" "c" candIrr = none :=
  ⟨(claim8_relevance_filter "b" "c" [candW, candIrr]).1 agW (by decide),
   ((claim8_relevance_filter "b" "c" [candW, candIrr]).2.2 candIrr
     "Pizza Hut" rfl (by decide)).1,
   ((claim8_relevance_filter "b" "c" [candW, candIrr]).2.2 candIrr
     "Pizza Hut" rfl (by decide)).2⟩

/-- C9 counterexample: the GPU scraper materializes a record with empty text
and rating 5 — it survives the skip check — yet the record carries no
language key at all (the claim says every record carries one). -/
theorem claim9_counterexample :
    (gpu_get_reviews agW clW 20 [gnodeRatedNoText]).length = 1 ∧
    (gpu_get_reviews agW clW 20 [gnodeRatedNoText]).map (fun r => r.rating)
        = [some 5] ∧
    (gpu_get_reviews agW clW 20 [gnodeRatedNoText]).map (fun r => r.language)
        = [none] :=
  ⟨by decide, by decide, by decide⟩

/-- C9 (amended): language detection runs exactly on non-empty text and a
classifier failure yields "unknown" instead of an exception, in both
variants; every sequential record carries a language field ("unknown" when
the text is empty), but a GPU-variant record with empty text carries no
language field at all. -/
theorem claim9_language_detection (ag : Agency) (cl : String → Option String)
    (T : Int) (mr : Nat) (nodes : List SeqNode) (gnodes : List GpuNode) :
    (∀ r ∈ seq_get_reviews ag cl T mr nodes,
        r.language = seqLanguage cl r.text) ∧
    (∀ r ∈ gpu_get_reviews ag cl mr gnodes,
        r.language = gpuLanguage cl r.text) ∧
    (∀ t : String, cl t = none → seqLanguage cl t = "unknown") ∧
    (∀ t : String, t ≠ "" → cl t = none →
        gpuLanguage cl t = some "unknown") := by
  refine ⟨?_, ?_, ?_, ?_⟩
  · intro r hr
    unfold seq_get_reviews at hr
    rcases List.mem_filterMap.mp hr with ⟨n, _, hs⟩
    rw [seqProcessNode_eq] at hs
    by_cases hc : seqTextOf n.textOutcomes n.buttonPasses ≠ "" ∨
        pyTruthyInt (seqNodeRating n) = true
    · rw [if_pos hc] at hs
      obtain rfl : _ = r := Option.some.inj hs
      rfl
    · rw [if_neg hc] at hs; exact absurd hs (by simp)
  · intro r hr
    unfold gpu_get_reviews at hr
    rcases List.mem_map.mp hr with ⟨r0, _, rfl⟩
    rfl
  · intro t h
    by_cases ht : t = "" <;> simp [seqLanguage, ht, h]
  · intro t ht h
    simp [gpuLanguage, ht, h]

/-- Witness for C9's amended theorem at concrete inputs. -/
theorem claim9_witness :
    rFive.language = seqLanguage clW rFive.text ∧
    seqLanguage (fun _ => none) "bonjour" = "unknown" ∧
    gpuLanguage (fun _ => none) "bonjour" = some "unknown" :=
  ⟨(claim9_language_detection agW clW 0 20 [nodeFive] []).1 rFive (by decide),
   (claim9_language_detection agW (fun _ => none) 0 20 [] []).2.2.1 "bonjour"
     rfl,
   (claim9_language_detection agW (fun _ => none) 0 20 [] []).2.2.2 "bonjour"
     (by decide) rfl⟩

/-- C10: one target's agency list never exceeds the per-target candidate
cap — 10 in the sequential scraper, 8 in the GPU variant — however many
results the page shows. -/
theorem claim10_agency_cap (bankName city : String)
    (cands : List SearchCandidate) :
    (seq_search_bank_agencies bankName city cands).length ≤ 10 ∧
    (gpu_search_bank_agencies bankName city cands).length ≤ 8 := by
  constructor
  · calc (seq_search_bank_agencies bankName city cands).length
        ≤ (cands.take 10).length := List.length_filterMap_le _ _
      _ ≤ 10 := List.length_take_le _ _
  · calc (gpu_search_bank_agencies bankName city cands).length
        ≤ (cands.take 8).length := List.length_filterMap_le _ _
      _ ≤ 8 := List.length_take_le _ _
